import Mathlib

/-!
Shallow embedding of the gryt-ci Release Contract and Promotion Engine
(src/gryt/generation.py, evolution.py, gates.py, policy.py, sync.py over
the SQLite store of src/gryt/data.py), together with theorems settling the
frozen claims about it.

Conventions of the embedding:
* the SQLite tables are lists of typed rows; INSERT appends, UPDATE maps
  over the rows matching the WHERE clause, SELECT filters/finds in row
  (insertion) order, mirroring SQLite's behaviour on these tables;
* machine timestamps (datetime.now()) and generated uuids are passed in as
  explicit parameters;
* dictionaries returned to callers become structures; a key that is absent
  from the returned dict and a key holding None both become Option.none;
* the event bus only mirrors state elsewhere and never changes the store,
  so event emission is not modelled.

The local store schema for the contract tables is not created anywhere
under the sources (only src/gryt/data.py's pipeline tables are); the row
types below are modelled from the spec: section 6 "Persisted schema",
extended with the code_name and last_synced_at columns that the sync layer
(src/gryt/sync.py) reads and writes.
-/

namespace Gryt

/-! ### Decimal rendering and parsing of natural numbers

Python renders integers in an f-string in decimal; the fuel-based
renderer below is that decimal rendering (fuel n+1 always suffices since
the argument shrinks by a factor of 10 each step). -/

/-- One decimal digit as a character, 0 ↦ '0', ..., 9 ↦ '9'. -/
def digitChar (d : Nat) : Char := Char.ofNat (48 + d)

/-- Decimal digits of n, most significant first (fuel-based). -/
def natToChars : Nat → Nat → List Char
  | 0, _ => []
  | fuel + 1, n => if n < 10 then [digitChar n] else natToChars fuel (n / 10) ++ [digitChar (n % 10)]

/-- Decimal rendering of a natural number, as Python's str(). -/
def natToString (n : Nat) : String := ⟨natToChars (n + 1) n⟩

/-- Value of a big-endian list of decimal digit characters (Python's int()). -/
def digitsVal (ds : List Char) : Nat := ds.foldl (fun a c => 10 * a + (c.toNat - 48)) 0

/-- Strip the first list off the front of the second, character by
character, returning the remainder (None when it is not a prefix). -/
def dropPre : List Char → List Char → Option (List Char)
  | [], t => some t
  | _ :: _, [] => none
  | p :: ps, c :: cs => if p = c then dropPre ps cs else none

/-! ### SQLite LIKE

SQLite's LIKE folds the ASCII letters A-Z to lower case on both sides and
treats % as any run of characters and _ as any single character. -/

/-- ASCII lower-case folding, as SQLite's LIKE applies to both operands. -/
def charFold (c : Char) : Char :=
  if 'A' ≤ c ∧ c ≤ 'Z' then Char.ofNat (c.toNat + 32) else c

/-- LIKE matching on character lists (pattern first); each step consumes
a pattern character or, for %, a text character, so fuel
pattern length + text length + 1 always suffices. -/
def likeChars : Nat → List Char → List Char → Bool
  | 0, _, _ => false
  | _ + 1, [], t => t.isEmpty
  | fuel + 1, p :: ps, t =>
    if p = '%' then
      likeChars fuel ps t ||
        (match t with
         | [] => false
         | _ :: ts => likeChars fuel (p :: ps) ts)
    else
      match t with
      | [] => false
      | c :: ts =>
        if p = '_' then likeChars fuel ps ts
        else if charFold p = charFold c then likeChars fuel ps ts else false

/-- SQL: s LIKE pat. -/
def sqlLike (pat s : String) : Bool :=
  likeChars (pat.data.length + s.data.length + 1) pat.data s.data

/-! ### JSON-ish values

The details dictionaries attached to gate results and policy violations
hold strings, numbers, booleans, lists and nested dictionaries. -/

/-- A value inside a details dictionary. -/
inductive DVal where
  | s (v : String)
  | n (v : Nat)
  | b (v : Bool)
  | list (vs : List DVal)
  | dict (kvs : List (String × DVal))

/-- A details dictionary: ordered key/value pairs. -/
abbrev Details := List (String × DVal)

/-! ### The local store

Row types follow the persisted schema of spec section 6, with the
code_name and last_synced_at columns the sync layer uses.  Timestamps are
opaque Nat values. -/

/-- A row of the generations table. -/
structure GenRow where
  generation_id : String
  version : String
  description : Option String
  status : String
  pipeline_template : Option String
  sync_status : String
  remote_id : Option String
  created_at : Option Nat
  promoted_at : Option Nat
  created_by : Option String
  promoted_by : Option String
  team_id : Option String
  last_synced_at : Option Nat
deriving Repr, DecidableEq

/-- A row of the generation_changes table. -/
structure ChangeRow where
  change_id : String
  generation_id : String
  type : String
  title : String
  description : Option String
  status : String
  pipeline : Option String
deriving Repr, DecidableEq

/-- A row of the evolutions table. -/
structure EvoRow where
  evolution_id : String
  generation_id : String
  change_id : String
  code_name : Option String
  tag : Option String
  status : String
  pipeline_run_id : Option String
  started_at : Option Nat
  completed_at : Option Nat
  sync_status : String
  remote_id : Option String
  created_by : Option String
  last_synced_at : Option Nat
deriving Repr, DecidableEq

/-- The SQLite store (src/gryt/data.py): each table is its list of rows in
insertion order.  Only the pipeline ids of the pipelines table are kept:
the sync layer consults nothing else of it. -/
structure Store where
  generations : List GenRow
  generation_changes : List ChangeRow
  evolutions : List EvoRow
  pipelines : List String
  sync_metadata : List (String × String)
deriving Repr, DecidableEq

/-! ### In-memory entities (generation.py, evolution.py) -/

/-- GenerationChange (generation.py).  The linked-pipelines list is not
modelled: no operation settled here consults it, and save_to_db does not
persist it. -/
structure GenerationChange where
  change_id : String
  type : String
  title : String
  description : Option String := none
  status : String := "pending"
  pipeline : Option String := none
deriving Repr, DecidableEq

/-- Generation (generation.py).  The constructor normalizes the version to
start with "v"; values of this structure are assumed already normalized
where that matters (the normalization itself is normalizeVersion). -/
structure Generation where
  generation_id : String
  version : String
  description : Option String := none
  changes : List GenerationChange
  pipeline_template : Option String := none
  status : String := "draft"
  sync_status : String := "not_synced"
  remote_id : Option String := none
  created_at : Nat := 0
  promoted_at : Option Nat := none
  created_by : Option String := none
  promoted_by : Option String := none
  team_id : Option String := none
deriving Repr, DecidableEq

/-- Python's str.startswith: a character-level prefix test. -/
def strStartsWith (s pre : String) : Bool := pre.data.isPrefixOf s.data

/-- version if version.startswith("v") else f"v{version}". -/
def normalizeVersion (version : String) : String :=
  if strStartsWith version "v" then version else "v" ++ version

/-- Evolution (evolution.py).  The class defines no code_name attribute:
none of its constructors or loaders ever sets one, which is why the
attribute accesses in sync.py's push_evolutions raise (see
Evolution.getCodeName below).  The tag is Option String because rows
pulled from the cloud may carry a NULL tag and from_db passes the column
through unchanged. -/
structure Evolution where
  evolution_id : String
  generation_id : String
  change_id : String
  tag : Option String
  status : String := "pending"
  pipeline_run_id : Option String := none
  started_at : Nat := 0
  completed_at : Option Nat := none
  sync_status : String := "not_synced"
  remote_id : Option String := none
  created_by : Option String := none
deriving Repr, DecidableEq

/-! ### Evolution persistence (evolution.py) -/

/-- The row inserted by Evolution.save_to_db when the evolution is new:
the evo_dict columns plus started_at; the code_name and last_synced_at
columns are not in the dict and stay NULL. -/
def Evolution.toRow (e : Evolution) : EvoRow where
  evolution_id := e.evolution_id
  generation_id := e.generation_id
  change_id := e.change_id
  code_name := none
  tag := e.tag
  status := e.status
  pipeline_run_id := e.pipeline_run_id
  started_at := some e.started_at
  completed_at := e.completed_at
  sync_status := e.sync_status
  remote_id := e.remote_id
  created_by := e.created_by
  last_synced_at := none

/-- The UPDATE issued by Evolution.save_to_db for an existing row: sets
the evo_dict columns, leaves started_at (not in the update dict),
code_name and last_synced_at untouched. -/
def Evolution.updateRow (e : Evolution) (r : EvoRow) : EvoRow :=
  { r with
    evolution_id := e.evolution_id
    generation_id := e.generation_id
    change_id := e.change_id
    tag := e.tag
    status := e.status
    pipeline_run_id := e.pipeline_run_id
    completed_at := e.completed_at
    sync_status := e.sync_status
    remote_id := e.remote_id
    created_by := e.created_by }

/-- Evolution.save_to_db: update the row matching evolution_id when one
exists, else insert a new row.  Event emission is not modelled. -/
def Evolution.save_to_db (e : Evolution) (s : Store) : Store :=
  if s.evolutions.any (fun r => r.evolution_id == e.evolution_id) then
    { s with evolutions :=
        s.evolutions.map (fun r => if r.evolution_id == e.evolution_id then e.updateRow r else r) }
  else
    { s with evolutions := s.evolutions ++ [e.toRow] }

/-- Evolution.from_db applied to a row: the constructor sets every
attribute from the row; no code_name attribute exists to set. -/
def Evolution.ofRow (r : EvoRow) : Evolution where
  evolution_id := r.evolution_id
  generation_id := r.generation_id
  change_id := r.change_id
  tag := r.tag
  status := r.status
  pipeline_run_id := r.pipeline_run_id
  started_at := r.started_at.getD 0
  completed_at := r.completed_at
  sync_status := r.sync_status
  remote_id := r.remote_id
  created_by := r.created_by

/-- Evolution.list_for_generation: the evolutions of one generation.  The
SQL orders by started_at DESC; the order is irrelevant to every property
settled here, so rows are kept in table order. -/
def Evolution.list_for_generation (s : Store) (generation_id : String) : List Evolution :=
  (s.evolutions.filter (fun r => r.generation_id == generation_id)).map Evolution.ofRow

/-- Evolution.generate_next_rc_tag: scan the tags LIKE "<version>-rc.%",
parse the numeric suffix with the anchored regex
re.escape(version) + "-rc\\.(\\d+)", and return one plus the highest (1
when no row matches the LIKE query).  The SQL orders rows by tag DESC;
the running-maximum fold is order independent, so rows are kept in table
order. -/
def parseRcNum (version tag : String) : Option Nat :=
  match dropPre (version.data ++ "-rc.".data) tag.data with
  | none => none
  | some rest =>
    let ds := rest.takeWhile Char.isDigit
    if ds.isEmpty then none else some (digitsVal ds)

/-- Evolution.generate_next_rc_tag (evolution.py lines 199-232). -/
def Evolution.generate_next_rc_tag (s : Store) (version : String) : String :=
  let v := normalizeVersion version
  let pat := v ++ "-rc.%"
  let rows := s.evolutions.filter (fun r => match r.tag with
    | some t => sqlLike pat t
    | none => false)
  if rows.isEmpty then v ++ "-rc.1"
  else
    let highest := rows.foldl (fun h r => match r.tag with
      | some t =>
        match parseRcNum v t with
        | some m => if m > h then m else h
        | none => h
      | none => h) 0
    v ++ "-rc." ++ natToString (highest + 1)

/-- Evolution.start_evolution (evolution.py lines 234-293): resolve the
generation by normalized version, validate the change belongs to it,
compute the next rc tag, create the pending evolution and save it.  The
fresh uuid and the clock are parameters; ValueError becomes the error
side, which also returns the untouched store (the exception propagates
before any insert).  Git tagging (auto_tag) touches no table and is not
modelled. -/
def Evolution.start_evolution (s : Store) (version change_id : String)
    (newId : String) (now : Nat) (created_by : Option String) :
    Except String Evolution × Store :=
  let v := normalizeVersion version
  match s.generations.find? (fun r => r.version == v) with
  | none => (.error ("Generation " ++ v ++ " not found"), s)
  | some genRow =>
    if (s.generation_changes.filter (fun r =>
        r.change_id == change_id && r.generation_id == genRow.generation_id)).isEmpty then
      (.error ("Change " ++ change_id ++ " not found in generation " ++ v), s)
    else
      let tag := Evolution.generate_next_rc_tag s v
      let evo : Evolution :=
        { evolution_id := newId
          generation_id := genRow.generation_id
          change_id := change_id
          tag := some tag
          status := "pending"
          started_at := now
          created_by := created_by }
      (.ok evo, evo.save_to_db s)

/-! ### Generation persistence (generation.py) -/

/-- The UPDATE issued by Generation.save_to_db for an existing row: sets
the gen_dict columns; created_at (only added on insert) and
last_synced_at stay untouched. -/
def Generation.updateRow (g : Generation) (r : GenRow) : GenRow :=
  { r with
    generation_id := g.generation_id
    version := g.version
    description := g.description
    status := g.status
    pipeline_template := g.pipeline_template
    sync_status := g.sync_status
    remote_id := g.remote_id
    promoted_at := g.promoted_at
    created_by := g.created_by
    promoted_by := g.promoted_by
    team_id := g.team_id }

/-- The row inserted by Generation.save_to_db when the generation is new:
the gen_dict columns plus created_at. -/
def Generation.toRow (g : Generation) : GenRow where
  generation_id := g.generation_id
  version := g.version
  description := g.description
  status := g.status
  pipeline_template := g.pipeline_template
  sync_status := g.sync_status
  remote_id := g.remote_id
  created_at := some g.created_at
  promoted_at := g.promoted_at
  created_by := g.created_by
  promoted_by := g.promoted_by
  team_id := g.team_id
  last_synced_at := none

/-- The generation_changes row written for one change of a generation. -/
def changeRowOf (generation_id : String) (c : GenerationChange) : ChangeRow where
  change_id := c.change_id
  generation_id := generation_id
  type := c.type
  title := c.title
  description := c.description
  status := c.status
  pipeline := c.pipeline

/-- Generation.save_to_db (generation.py lines 220-279): upsert the
generations row, then for each change insert a generation_changes row
only when no row with that change_id exists anywhere in the table (the
existence query is not scoped to the generation); an existing row is
never updated.  Event emission is not modelled. -/
def Generation.save_to_db (g : Generation) (s : Store) : Store :=
  let s1 :=
    if s.generations.any (fun r => r.generation_id == g.generation_id) then
      { s with generations :=
          s.generations.map (fun r => if r.generation_id == g.generation_id then g.updateRow r else r) }
    else
      { s with generations := s.generations ++ [g.toRow] }
  g.changes.foldl (fun acc c =>
    if acc.generation_changes.any (fun r => r.change_id == c.change_id) then acc
    else { acc with generation_changes := acc.generation_changes ++ [changeRowOf g.generation_id c] }) s1

/-! ### Promotion gates (gates.py) -/

/-- GateResult (gates.py): passed flag, message and details dict. -/
structure GateResult where
  passed : Bool
  message : String
  details : Details

/-- A promotion gate: its name and its check capability.  Concrete gate
classes become values of this structure. -/
structure Gate where
  name : String
  check : Generation → Store → GateResult

/-- The per-gate entry promote() appends to gate_results: the gate name
and the three GateResult fields. -/
structure GateEntry where
  gate : String
  passed : Bool
  message : String
  details : Details

/-- The per-change evolution counts AllChangesProvenGate computes: total
evolutions for the (generation_id, change_id) pair and how many of them
have status pass. -/
def provenCounts (g : Generation) (s : Store) (c : GenerationChange) : Nat × Nat :=
  let evolutions := s.evolutions.filter (fun e =>
    e.generation_id == g.generation_id && e.change_id == c.change_id)
  let passed := evolutions.filter (fun e => e.status == "pass")
  (evolutions.length, passed.length)

/-- The change_status details dict AllChangesProvenGate builds. -/
def changeStatusDVal (g : Generation) (s : Store) : DVal :=
  .dict (g.changes.map (fun c =>
    let counts := provenCounts g s c
    (c.change_id, .dict
      [("title", .s c.title), ("type", .s c.type),
       ("evolutions_count", .n counts.1), ("passed_count", .n counts.2),
       ("has_pass", .b (decide (0 < counts.2)))])))

/-- The change ids of a generation having no pass evolution, in change
order. -/
def unprovenChanges (g : Generation) (s : Store) : List String :=
  (g.changes.filter (fun c => (provenCounts g s c).2 == 0)).map (fun c => c.change_id)

/-- AllChangesProvenGate.check (gates.py lines 63-121): fail with
"Generation has no changes" when the change list is empty; otherwise fail
listing the changes without a pass evolution, or pass when there are
none. -/
def AllChangesProvenGate.check (g : Generation) (s : Store) : GateResult :=
  if g.changes.isEmpty then
    { passed := false
      message := "Generation has no changes"
      details := [("change_count", .n 0)] }
  else
    let unproven := unprovenChanges g s
    if unproven.isEmpty then
      { passed := true
        message := "All " ++ natToString g.changes.length ++ " changes have PASS evolutions"
        details := [("change_status", changeStatusDVal g s),
                    ("total_changes", .n g.changes.length)] }
    else
      { passed := false
        message := "Changes without PASS evolution: " ++ String.intercalate ", " unproven
        details := [("unproven_changes", .list (unproven.map .s)),
                    ("change_status", changeStatusDVal g s),
                    ("total_changes", .n g.changes.length),
                    ("proven_changes", .n (g.changes.length - unproven.length))] }

/-- NoFailedEvolutionsGate.check (gates.py lines 197-223): fail iff some
evolution of the generation has status fail.  The details of the failing
branch list the offending rows; only tag and change_id matter to any
caller, so the entry keeps those. -/
def NoFailedEvolutionsGate.check (g : Generation) (s : Store) : GateResult :=
  let failed := s.evolutions.filter (fun e =>
    e.generation_id == g.generation_id && e.status == "fail")
  if failed.isEmpty then
    { passed := true, message := "No failed evolutions", details := [("failed_count", .n 0)] }
  else
    { passed := false
      message := "Failed evolutions found: " ++
        String.intercalate ", " (failed.map (fun e => (e.tag.getD "") ++ " (" ++ e.change_id ++ ")"))
      details := [("count", .n failed.length)] }

/-- get_default_gates (gates.py lines 226-231). -/
def get_default_gates : List Gate :=
  [{ name := "all_changes_proven", check := AllChangesProvenGate.check },
   { name := "no_failed_evolutions", check := NoFailedEvolutionsGate.check }]

/-! ### Generation.promote (generation.py lines 337-417) -/

/-- The dict promote() returns.  The failing return carries no tag /
tag_created keys; absent and None both become none. -/
structure PromoteResult where
  success : Bool
  message : String
  gate_results : List GateEntry
  tag : Option String
  tag_created : Option Bool

/-- The gate_results entry for one gate. -/
def gateEntryOf (g : Generation) (s : Store) (gt : Gate) : GateEntry :=
  let r := gt.check g s
  { gate := gt.name, passed := r.passed, message := r.message, details := r.details }

/-- Generation.promote: run every configured gate over the current state
collecting one entry per gate; when any failed, return success false with
the full list and touch nothing.  When all passed, set status promoted,
stamp promoted_at and promoted_by (the clock and the configured username
are parameters), persist via save_to_db, attempt the final git tag
(whether git succeeds is the tagOk parameter; the attempt only happens
under auto_tag) and return success true whatever the tag outcome.
Returns (result, the mutated self, the new store). -/
def Generation.promote (g : Generation) (gates : List Gate) (s : Store)
    (now : Nat) (promotedBy : String) (autoTag tagOk : Bool) :
    PromoteResult × Generation × Store :=
  let gate_results := gates.map (gateEntryOf g s)
  let all_passed := gate_results.all (fun r => r.passed)
  if all_passed then
    let g1 : Generation :=
      { g with status := "promoted", promoted_at := some now, promoted_by := some promotedBy }
    let s1 := g1.save_to_db s
    let tag_created := autoTag && tagOk
    ({ success := true
       message := "Generation " ++ g1.version ++ " promoted successfully"
       gate_results := gate_results
       tag := if tag_created then some g1.version else none
       tag_created := some tag_created }, g1, s1)
  else
    let failed := gate_results.filter (fun r => !r.passed)
    ({ success := false
       message := natToString failed.length ++ " promotion gate(s) failed"
       gate_results := gate_results
       tag := none
       tag_created := none }, g, s)

/-! ### Policies (policy.py) -/

/-- PolicyViolation (policy.py): the structured error value. -/
structure PolicyViolation where
  policy_name : String
  message : String
  details : Details

/-- Policy (policy.py).  The config dict only ever serves the three keys
change_types, required_steps and min_evolutions, with defaults [], [] and
1; they are modelled as fields. -/
structure Policy where
  name : String
  type : String
  enabled : Bool := true
  change_types : List String := []
  required_steps : List String := []
  min_evolutions : Nat := 1
deriving Repr, DecidableEq

/-- Policy.applies_to (policy.py lines 48-57): disabled policies apply to
nothing; an empty change_types list applies to all types. -/
def Policy.applies_to (p : Policy) (change_type : String) : Bool :=
  if !p.enabled then false
  else if p.change_types.isEmpty then true
  else p.change_types.contains change_type

/-- Policy._validate_change_type (policy.py lines 80-109).  Python's `if
not pipeline_steps` treats both None and the empty list as missing.  The
first message renders the required list with Python's repr; the quoting
of that repr is elided to a comma-joined form here (no claim depends on
the message text). -/
def Policy.validate_change_type (p : Policy) (change_type : String)
    (pipeline_steps : Option (List String)) : Option PolicyViolation :=
  if p.required_steps.isEmpty then none
  else
    let steps := pipeline_steps.getD []
    if steps.isEmpty then
      some { policy_name := p.name
             message := "Required steps " ++ String.intercalate ", " p.required_steps ++
               " not found (no pipeline steps provided)"
             details := [("required_steps", .list (p.required_steps.map .s)),
                         ("change_type", .s change_type)] }
    else
      let missing := p.required_steps.filter (fun st => !steps.contains st)
      if missing.isEmpty then none
      else
        some { policy_name := p.name
               message := "Missing required steps: " ++ String.intercalate ", " missing
               details := [("required_steps", .list (p.required_steps.map .s)),
                           ("pipeline_steps", .list (steps.map .s)),
                           ("missing_steps", .list (missing.map .s)),
                           ("change_type", .s change_type)] }

/-- Policy._validate_evolution_count (policy.py lines 111-139). -/
def Policy.validate_evolution_count (p : Policy) (change_id generation_id : String)
    (s : Store) : Option PolicyViolation :=
  let count := (s.evolutions.filter (fun e =>
    e.generation_id == generation_id && e.change_id == change_id)).length
  if count < p.min_evolutions then
    some { policy_name := p.name
           message := "Insufficient evolutions: " ++ natToString count ++ "/" ++
             natToString p.min_evolutions
           details := [("min_required", .n p.min_evolutions),
                       ("actual_count", .n count),
                       ("change_id", .s change_id)] }
  else none

/-- Policy.validate (policy.py lines 59-78): nothing when the policy does
not apply; dispatch on the policy type otherwise.  Raising a
PolicyViolation becomes returning it. -/
def Policy.validate (p : Policy) (change_type change_id generation_id : String)
    (s : Store) (pipeline_steps : Option (List String)) : Option PolicyViolation :=
  if !p.applies_to change_type then none
  else if p.type == "change_type" then p.validate_change_type change_type pipeline_steps
  else if p.type == "evolution_count" then p.validate_evolution_count change_id generation_id s
  else none

/-- PolicySet (policy.py). -/
structure PolicySet where
  policies : List Policy
deriving Repr, DecidableEq

/-- PolicySet.validate_all (policy.py lines 184-205): run every policy
in order, appending each raised PolicyViolation to the collected list and
never stopping early. -/
def PolicySet.validate_all (ps : PolicySet) (change_type change_id generation_id : String)
    (s : Store) (pipeline_steps : Option (List String)) : List PolicyViolation :=
  ps.policies.foldl (fun acc p =>
    match p.validate change_type change_id generation_id s pipeline_steps with
    | some v => acc ++ [v]
    | none => acc) []

/-! ### Cloud sync (sync.py)

The remote service is an oracle: the generation list a pull receives and
the per-generation evolution lists are data.  Remote ids are strings (the
tests drive the code with string ids; SQLite compares them opaquely). -/

/-- One change of a cloud generation payload. -/
structure CloudChange where
  id : String
  type : String
  title : String
  description : Option String := none
  status : Option String := none
  pipeline : Option String := none
deriving Repr, DecidableEq

/-- One generation payload from the cloud.  changes is Option because
_update_from_cloud only replaces the local change set when the key is
present. -/
structure CloudGen where
  id : String
  generation_id : String
  version : String
  description : Option String := none
  status : Option String := none
  pipeline_template : Option String := none
  created_at : Option Nat := none
  promoted_at : Option Nat := none
  created_by : Option String := none
  promoted_by : Option String := none
  team_id : Option String := none
  changes : Option (List CloudChange) := none
deriving Repr, DecidableEq

/-- One evolution payload from the cloud. -/
structure CloudEvo where
  id : String
  evolution_id : String
  change_id : String
  code_name : String
  tag : Option String := none
  status : String
  pipeline_run_id : Option String := none
  started_at : Option Nat := none
  completed_at : Option Nat := none
  created_by : Option String := none
deriving Repr, DecidableEq

/-- The cloud state a pull sees: list_generations and, per cloud
generation id, list_evolutions. -/
structure Cloud where
  generations : List CloudGen
  evolutions : String → List CloudEvo

/-- The evolutions row _pull_evolutions_for_generation writes (insert and
update use the same evolution_data dict, which covers every column). -/
def evoRowOfCloud (generation_id : String) (now : Nat) (pipeline_run_id : Option String)
    (ce : CloudEvo) : EvoRow where
  evolution_id := ce.evolution_id
  generation_id := generation_id
  change_id := ce.change_id
  code_name := some ce.code_name
  tag := ce.tag
  status := ce.status
  pipeline_run_id := pipeline_run_id
  started_at := ce.started_at
  completed_at := ce.completed_at
  sync_status := "synced"
  remote_id := some ce.id
  created_by := ce.created_by
  last_synced_at := some now

/-- The body of _pull_evolutions_for_generation's loop: upsert one cloud
evolution under the given local generation id, nulling pipeline_run_id
when the pipeline is not in the local pipelines table.  The subsequent
pull_pipeline_run call only happens for a pipeline id just verified to
exist locally, where it returns without touching the store
(sync.py lines 1012-1016), so it is a no-op here. -/
def upsertCloudEvo (gid : String) (now : Nat) (acc : Store) (ce : CloudEvo) : Store :=
  let prid := match ce.pipeline_run_id with
    | some pid => if acc.pipelines.contains pid then some pid else none
    | none => none
  let row := evoRowOfCloud gid now prid ce
  if acc.evolutions.any (fun r => r.evolution_id == ce.evolution_id) then
    { acc with evolutions :=
        acc.evolutions.map (fun r => if r.evolution_id == ce.evolution_id then row else r) }
  else
    { acc with evolutions := acc.evolutions ++ [row] }

/-- CloudSync._pull_evolutions_for_generation (sync.py lines 729-810):
upsert each cloud evolution under the local generation id (the cloud's
own generation_id when none is supplied). -/
def CloudSync.pull_evolutions_for_generation (s : Store) (cloud : Cloud) (cg : CloudGen)
    (local_generation_id : Option String) (now : Nat) : Store :=
  (cloud.evolutions cg.id).foldl
    (upsertCloudEvo (local_generation_id.getD cg.generation_id) now) s

/-- The generations row _insert_from_cloud writes. -/
def genRowOfCloud (cg : CloudGen) (now : Nat) : GenRow where
  generation_id := cg.generation_id
  version := cg.version
  description := cg.description
  status := cg.status.getD "draft"
  pipeline_template := cg.pipeline_template
  sync_status := "synced"
  remote_id := some cg.id
  created_at := cg.created_at
  promoted_at := cg.promoted_at
  created_by := cg.created_by
  promoted_by := cg.promoted_by
  team_id := cg.team_id
  last_synced_at := some now

/-- The generation_changes row written from a cloud change. -/
def changeRowOfCloud (generation_id : String) (ch : CloudChange) : ChangeRow where
  change_id := ch.id
  generation_id := generation_id
  type := ch.type
  title := ch.title
  description := ch.description
  status := ch.status.getD "pending"
  pipeline := ch.pipeline

/-- CloudSync._insert_from_cloud (sync.py lines 604-640): insert the
generation row linked by remote_id, insert its changes, then pull its
evolutions under the cloud generation_id. -/
def CloudSync.insert_from_cloud (s : Store) (cloud : Cloud) (cg : CloudGen) (now : Nat) : Store :=
  let s1 := { s with generations := s.generations ++ [genRowOfCloud cg now] }
  let s2 := { s1 with generation_changes :=
      s1.generation_changes ++ (cg.changes.getD []).map (changeRowOfCloud cg.generation_id) }
  CloudSync.pull_evolutions_for_generation s2 cloud cg none now

/-- The UPDATE _update_from_cloud issues on the linked local generation
row: every scalar field from the cloud except generation_id, remote_id
and created_at. -/
def genRowUpdateFromCloud (cg : CloudGen) (now : Nat) (r : GenRow) : GenRow :=
  { r with
    version := cg.version
    description := cg.description
    status := cg.status.getD "draft"
    pipeline_template := cg.pipeline_template
    promoted_at := cg.promoted_at
    created_by := cg.created_by
    promoted_by := cg.promoted_by
    team_id := cg.team_id
    sync_status := "synced"
    last_synced_at := some now }

/-- CloudSync._update_from_cloud (sync.py lines 642-699): overwrite the
scalar fields of the linked local row; when the payload carries a changes
key, delete the generation's evolutions and changes wholesale and
re-insert the cloud changes; finally pull evolutions under the local
generation id. -/
def CloudSync.update_from_cloud (s : Store) (cloud : Cloud) (localRow : GenRow)
    (cg : CloudGen) (now : Nat) : Store :=
  let gid := localRow.generation_id
  let s1 := { s with generations :=
      s.generations.map (fun r => if r.generation_id == gid then genRowUpdateFromCloud cg now r else r) }
  let s2 := match cg.changes with
    | none => s1
    | some chs =>
      let sa := { s1 with evolutions := s1.evolutions.filter (fun e => !(e.generation_id == gid)) }
      let sb := { sa with generation_changes :=
          sa.generation_changes.filter (fun c => !(c.generation_id == gid)) }
      { sb with generation_changes := sb.generation_changes ++ chs.map (changeRowOfCloud gid) }
  CloudSync.pull_evolutions_for_generation s2 cloud cg (some gid) now

/-- The result dict of pull(): counts and conflict entries. -/
structure ConflictEntry where
  version : String
  reason : String
  resolution : String
deriving Repr, DecidableEq

/-- The dict pull() returns. -/
structure PullResult where
  new : Nat
  updated : Nat
  conflicts : List ConflictEntry
deriving Repr, DecidableEq

/-- CloudSync._set_metadata (sync.py lines 701-719): upsert one
sync_metadata key. -/
def CloudSync.set_metadata (s : Store) (key value : String) : Store :=
  if s.sync_metadata.any (fun p => p.1 == key) then
    { s with sync_metadata := s.sync_metadata.map (fun p => if p.1 == key then (p.1, value) else p) }
  else
    { s with sync_metadata := s.sync_metadata ++ [(key, value)] }

/-- The body of pull()'s per-generation loop (sync.py lines 61-92): when
a local row is linked by remote_id, update it from the cloud and count it
updated; otherwise a local row with the same version is a conflict entry
and nothing is merged; otherwise insert as new. -/
def CloudSync.pullStep (cloud : Cloud) (now : Nat) :
    Store × PullResult → CloudGen → Store × PullResult :=
  fun (s, res) cg =>
    match s.generations.find? (fun r => r.remote_id == some cg.id) with
    | some localRow =>
      (CloudSync.update_from_cloud s cloud localRow cg now,
       { res with updated := res.updated + 1 })
    | none =>
      if (s.generations.filter (fun r => r.version == cg.version)).isEmpty then
        (CloudSync.insert_from_cloud s cloud cg now, { res with new := res.new + 1 })
      else
        (s, { res with conflicts := res.conflicts ++
          [{ version := cg.version
             reason := "Local and cloud have same version"
             resolution := "Rename local version or delete" }] })

/-- CloudSync.pull (sync.py lines 31-103): fold the loop body over the
cloud generations starting from zero counts, then stamp the pull
timestamp into sync_metadata. -/
def CloudSync.pull (s : Store) (cloud : Cloud) (now : Nat) : PullResult × Store :=
  let out := cloud.generations.foldl (CloudSync.pullStep cloud now) (s, ⟨0, 0, []⟩)
  (out.2, CloudSync.set_metadata out.1 "last_pull_timestamp" (natToString now))

/-! ### CloudSync.push_evolutions (sync.py lines 275-461)

The loop body reads evo.code_name in three places (the change-not-found
error entry, the evo_data dict and the generic except handler's error
entry), but the Evolution class never defines that attribute, so each
read raises AttributeError. -/

/-- A raised Python exception, as far as this layer needs one. -/
inductive PyErr where
  | attributeError (attr : String)
deriving Repr, DecidableEq

/-- str(e) of a modelled exception; only its presence matters. -/
def pyErrStr : PyErr → String
  | .attributeError a => "Evolution object has no attribute " ++ a

/-- The Python attribute access evo.code_name: Evolution.__init__ and
from_db never set such an attribute (see Evolution above), so the access
raises AttributeError unconditionally. -/
def Evolution.getCodeName (_ : Evolution) : Except PyErr String :=
  .error (.attributeError "code_name")

/-- One entry of push_evolutions' errors list: the pre-loop entries carry
the version, the per-evolution entries carry code_name and tag. -/
inductive PushError where
  | version (version error : String)
  | item (code_name : String) (tag : Option String) (error : String)
deriving Repr, DecidableEq

/-- The dict push_evolutions returns. -/
structure PushResult where
  created : Nat
  updated : Nat
  errors : List PushError
deriving Repr, DecidableEq

/-- The client calls push_evolutions makes before its loop: only
get_generation_by_version matters (None models the raised lookup error);
the create/update/list evolution calls all sit beyond the first
evo.code_name access and are never reached. -/
structure EvoPushClient where
  get_generation_by_version : String → Option CloudGen

/-- The per-evolution loop of push_evolutions (sync.py lines 327-459).
The try body reads evo.code_name before performing any local write or
evolution API call — at line 338 when the change is missing from the
cloud generation, at line 368 (evo_data) otherwise; the preceding
pipeline push (lines 344-356) only logs and never raises.  The except
handler (lines 454-459) builds its error entry from evo.code_name too,
so the AttributeError it hits propagates out of the loop.  The
create/update logic of lines 375-452 is unreachable — it sits after the
failing evo_data construction — and is represented by returning the
running result unchanged. -/
def CloudSync.pushEvolutionsLoop (cloudGen : CloudGen) :
    List Evolution → PushResult → Except PyErr PushResult
  | [], res => .ok res
  | evo :: rest, res =>
    let body : Except PyErr PushResult :=
      match (cloudGen.changes.getD []).find? (fun ch => ch.id == evo.change_id) with
      | none =>
        (evo.getCodeName).bind (fun cn =>
          .ok { res with errors := res.errors ++
            [.item cn evo.tag ("Change " ++ evo.change_id ++ " not found in cloud generation")] })
      | some _ =>
        (evo.getCodeName).bind (fun _ => .ok res)
    match body with
    | .ok res1 => CloudSync.pushEvolutionsLoop cloudGen rest res1
    | .error e =>
      match evo.getCodeName with
      | .error e1 => .error e1
      | .ok cn => CloudSync.pushEvolutionsLoop cloudGen rest
          { res with errors := res.errors ++ [.item cn evo.tag (pyErrStr e)] }

/-- CloudSync.push_evolutions: resolve the generation by (unnormalized)
version, require it linked to the cloud, fetch the cloud generation, then
run the loop over the generation's evolutions.  The quoting inside the
not-synced message is elided.  No local write happens before the loop, so
an exception escaping the loop leaves the store untouched. -/
def CloudSync.push_evolutions (s : Store) (client : EvoPushClient) (version : String) :
    Except PyErr PushResult :=
  match s.generations.find? (fun r => r.version == version) with
  | none => .ok ⟨0, 0, [.version version "Generation not found"]⟩
  | some row =>
    match row.remote_id with
    | none => .ok ⟨0, 0,
        [.version version "Generation not synced to cloud yet. Run gryt sync push first."]⟩
    | some _ =>
      match client.get_generation_by_version version with
      | none => .ok ⟨0, 0, [.version version "Failed to get cloud generation"]⟩
      | some cloudGen =>
        CloudSync.pushEvolutionsLoop cloudGen
          (Evolution.list_for_generation s row.generation_id) ⟨0, 0, []⟩

/-! ## Helper lemmas -/

/-- Collecting into an accumulator with appends is filterMap.  The step
function is abstract so the lemma applies to any syntactic rendering of
the some/none dispatch. -/
theorem foldl_collect_eq_filterMap {α β : Type} (f : α → Option β) (step : List β → α → List β)
    (hsome : ∀ a x v, f x = some v → step a x = a ++ [v])
    (hnone : ∀ a x, f x = none → step a x = a) :
    ∀ (l : List α) (acc : List β), l.foldl step acc = acc ++ l.filterMap f := by
  intro l
  induction l with
  | nil => intro acc; simp
  | cons x xs ih =>
    intro acc
    cases hf : f x with
    | none => simp [List.filterMap_cons, hf, hnone _ _ hf, ih]
    | some v => simp [List.filterMap_cons, hf, hsome _ _ _ hf, ih]

/-! ## C6: PolicySet.validate_all collects violations -/

/-- C6.  For every policy set and every (change_type, change_id,
generation_id, pipeline_steps) input, PolicySet.validate_all never raises
(it is a total function) and never stops at the first failure: it returns
exactly the list of per-policy violations in policy order — one for each
enabled, applicable policy whose check fails — and a disabled policy, or
one whose non-empty change_types list does not contain the change's type,
contributes no violation (an empty change_types list applies to all
types). -/
theorem policy_validate_all_collects (ps : PolicySet)
    (change_type change_id generation_id : String) (s : Store)
    (pipeline_steps : Option (List String)) :
    ps.validate_all change_type change_id generation_id s pipeline_steps
        = ps.policies.filterMap
            (fun p => p.validate change_type change_id generation_id s pipeline_steps)
    ∧ ∀ p ∈ ps.policies,
        (p.enabled = false ∨ (p.change_types ≠ [] ∧ p.change_types.contains change_type = false)) →
        p.validate change_type change_id generation_id s pipeline_steps = none := by
  constructor
  · unfold PolicySet.validate_all
    refine Eq.trans (foldl_collect_eq_filterMap
      (fun p => Policy.validate p change_type change_id generation_id s pipeline_steps)
      _ ?_ ?_ ps.policies []) (by simp)
    · intro a x v h; simp [h]
    · intro a x h; simp [h]
  · intro p _ hcond
    have happ : p.applies_to change_type = false := by
      unfold Policy.applies_to
      rcases hcond with hdis | ⟨hne, hnc⟩
      · simp [hdis]
      · rcases hen : p.enabled with _ | _
        · simp
        · have hie : p.change_types.isEmpty = false := by
            simpa [List.isEmpty_iff] using hne
          simp [hie]
          simpa using hnc
    unfold Policy.validate
    simp [happ]

/-- Concrete fixtures for the C6 witness: a failing applicable policy, a
disabled one and one scoped away from the change type. -/
def policyRequireSteps : Policy :=
  { name := "require_e2e_for_add", type := "change_type",
    change_types := ["add"], required_steps := ["e2e_test"] }

def policyDisabled : Policy :=
  { name := "min_two_evolutions", type := "evolution_count",
    enabled := false, min_evolutions := 2 }

def policyScopedFix : Policy :=
  { name := "require_security_scan_for_fix", type := "change_type",
    change_types := ["fix"], required_steps := ["security_scan"] }

def emptyStore : Store := ⟨[], [], [], [], []⟩

/-- Witness for C6: on an add change with no pipeline steps, only the
enabled applicable policy contributes its violation; the disabled and the
fix-scoped ones contribute none. -/
theorem policy_validate_all_collects_witness :
    (PolicySet.mk [policyRequireSteps, policyDisabled, policyScopedFix]).validate_all
        "add" "CH-1" "G-1" emptyStore none
      = [{ policy_name := "require_e2e_for_add"
           message := "Required steps e2e_test not found (no pipeline steps provided)"
           details := [("required_steps", .list [.s "e2e_test"]), ("change_type", .s "add")] }]
    ∧ policyDisabled.validate "add" "CH-1" "G-1" emptyStore none = none
    ∧ policyScopedFix.validate "add" "CH-1" "G-1" emptyStore none = none := by
  have h := policy_validate_all_collects (PolicySet.mk [policyRequireSteps, policyDisabled, policyScopedFix])
    "add" "CH-1" "G-1" emptyStore none
  refine ⟨?_, ?_, ?_⟩
  · rw [h.1]; rfl
  · exact h.2 policyDisabled (by simp) (Or.inl rfl)
  · exact h.2 policyScopedFix (by simp) (Or.inr ⟨by simp [policyScopedFix], by rfl⟩)

/-! ## C1 / C2: Generation.promote -/

/-- C1.  For every configured gate list with at least one gate reporting
passed=false, Generation.promote still evaluates every gate (the result
carries exactly one (name, passed, message, details) entry per configured
gate, in order, via gateEntryOf), returns success=false, and leaves both
the in-memory generation (hence its draft status) and the whole store —
in particular the stored generation row — unchanged. -/
theorem generation_promote_failing_gate (g : Generation) (gates : List Gate) (s : Store)
    (now : Nat) (promotedBy : String) (autoTag tagOk : Bool)
    (h : ∃ gt ∈ gates, (gt.check g s).passed = false) :
    g.promote gates s now promotedBy autoTag tagOk =
      ({ success := false
         message := natToString ((gates.map (gateEntryOf g s)).filter (fun r => !r.passed)).length
           ++ " promotion gate(s) failed"
         gate_results := gates.map (gateEntryOf g s)
         tag := none
         tag_created := none }, g, s) := by
  obtain ⟨gt, hmem, hfail⟩ := h
  have hall : (gates.map (gateEntryOf g s)).all (fun r => r.passed) = false := by
    rcases hres : (gates.map (gateEntryOf g s)).all (fun r => r.passed) with _ | _
    · rfl
    · exfalso
      have := (List.all_eq_true.mp hres) (gateEntryOf g s gt) (List.mem_map_of_mem _ hmem)
      rw [show (gateEntryOf g s gt).passed = (gt.check g s).passed from rfl, hfail] at this
      exact Bool.false_ne_true this
  unfold Generation.promote
  simp only [hall, Bool.false_eq_true, if_false]

/-- Fixtures for the promote witnesses: a generation, an empty store, one
always-failing and one always-passing gate. -/
def genEx : Generation :=
  { generation_id := "G-1", version := "v1.0.0",
    changes := [{ change_id := "CH-1", type := "add", title := "Feature" }] }

def gateFail : Gate := { name := "g_fail", check := fun _ _ => ⟨false, "boom", []⟩ }

def gatePass : Gate := { name := "g_pass", check := fun _ _ => ⟨true, "ok", []⟩ }

/-- Witness for C1: promoting with one passing and one failing gate fails,
keeps generation and store intact and reports both gate entries in
order. -/
theorem generation_promote_failing_gate_witness :
    genEx.promote [gatePass, gateFail] emptyStore 7 "alice" true true =
      ({ success := false
         message := natToString (([gatePass, gateFail].map (gateEntryOf genEx emptyStore)).filter
             (fun r => !r.passed)).length ++ " promotion gate(s) failed"
         gate_results := [gatePass, gateFail].map (gateEntryOf genEx emptyStore)
         tag := none
         tag_created := none }, genEx, emptyStore) :=
  generation_promote_failing_gate genEx [gatePass, gateFail] emptyStore 7 "alice" true true
    ⟨gateFail, by simp, rfl⟩

/-- C2.  For every generation on which all configured gates pass (with
auto-tag enabled), Generation.promote returns success=true, sets status
to promoted and stamps promoted_at, persists the promoted generation via
save_to_db, and attempts the final version tag: the tag outcome tagOk
only picks tag_created and tag (tagOk=false yields tag_created=false and
tag=none) and neither changes success nor rolls back the promoted
status or the persisted store. -/
theorem generation_promote_all_pass (g : Generation) (gates : List Gate) (s : Store)
    (now : Nat) (promotedBy : String) (tagOk : Bool)
    (h : ∀ gt ∈ gates, (gt.check g s).passed = true) :
    g.promote gates s now promotedBy true tagOk =
      ({ success := true
         message := "Generation " ++ g.version ++ " promoted successfully"
         gate_results := gates.map (gateEntryOf g s)
         tag := if tagOk then some g.version else none
         tag_created := some tagOk },
       { g with status := "promoted", promoted_at := some now, promoted_by := some promotedBy },
       Generation.save_to_db
         { g with status := "promoted", promoted_at := some now, promoted_by := some promotedBy } s) := by
  have hall : (gates.map (gateEntryOf g s)).all (fun r => r.passed) = true := by
    rw [List.all_eq_true]
    intro r hr
    obtain ⟨gt, hmem, rfl⟩ := List.mem_map.mp hr
    exact h gt hmem
  unfold Generation.promote
  simp only [hall, if_true, Bool.true_and]

/-- Witness for C2, exercising the tag-failure path: all gates pass,
tagOk=false, success is still true, status is promoted, tag_created is
false and tag is none. -/
theorem generation_promote_all_pass_witness :
    genEx.promote [gatePass] emptyStore 7 "alice" true false =
      ({ success := true
         message := "Generation " ++ genEx.version ++ " promoted successfully"
         gate_results := [gatePass].map (gateEntryOf genEx emptyStore)
         tag := none
         tag_created := some false },
       { genEx with status := "promoted", promoted_at := some 7, promoted_by := some "alice" },
       Generation.save_to_db
         { genEx with status := "promoted", promoted_at := some 7, promoted_by := some "alice" }
         emptyStore) := by
  have h := generation_promote_all_pass genEx [gatePass] emptyStore 7 "alice" false
    (by intro gt hgt; rcases List.mem_singleton.mp hgt with rfl; rfl)
  simpa using h

/-! ## C10: Generation.save_to_db never updates existing change rows -/

/-- The change-insertion fold of save_to_db leaves the generations table
alone. -/
theorem insertChanges_fold_generations (gid : String) (cs : List GenerationChange) :
    ∀ s : Store,
      (cs.foldl (fun acc c =>
          if acc.generation_changes.any (fun r => r.change_id == c.change_id) then acc
          else { acc with generation_changes := acc.generation_changes ++ [changeRowOf gid c] })
        s).generations = s.generations := by
  induction cs with
  | nil => intro s; rfl
  | cons c cs ih =>
    intro s
    rw [List.foldl_cons]
    by_cases h : s.generation_changes.any (fun r => r.change_id == c.change_id) = true
    · rw [if_pos h]; exact ih s
    · rw [if_neg h]
      exact ih _

/-- The change-insertion fold of save_to_db only appends rows, never
touches an existing row, and each appended row stems from a change whose
change_id was absent from the table when it was reached. -/
theorem insertChanges_fold_spec (gid : String) (cs : List GenerationChange) :
    ∀ s : Store, ∃ newRows,
      (cs.foldl (fun acc c =>
          if acc.generation_changes.any (fun r => r.change_id == c.change_id) then acc
          else { acc with generation_changes := acc.generation_changes ++ [changeRowOf gid c] })
        s).generation_changes = s.generation_changes ++ newRows
      ∧ ∀ r ∈ newRows,
          (∀ r0 ∈ s.generation_changes, ¬ r0.change_id = r.change_id)
          ∧ ∃ c ∈ cs, r = changeRowOf gid c := by
  induction cs with
  | nil => intro s; exact ⟨[], by simp, by simp⟩
  | cons c cs ih =>
    intro s
    rw [List.foldl_cons]
    by_cases h : s.generation_changes.any (fun r => r.change_id == c.change_id) = true
    · rw [if_pos h]
      obtain ⟨nr, h1, h2⟩ := ih s
      refine ⟨nr, h1, fun r hr => ⟨(h2 r hr).1, ?_⟩⟩
      obtain ⟨c1, hc1, he⟩ := (h2 r hr).2
      exact ⟨c1, List.mem_cons_of_mem _ hc1, he⟩
    · rw [if_neg h]
      obtain ⟨nr, h1, h2⟩ :=
        ih { s with generation_changes := s.generation_changes ++ [changeRowOf gid c] }
      refine ⟨changeRowOf gid c :: nr, by simpa using h1, ?_⟩
      have habs : ∀ r0 ∈ s.generation_changes, ¬ r0.change_id = c.change_id := by
        intro r0 hr0 he
        exact h (List.any_eq_true.mpr ⟨r0, hr0, by simp [he]⟩)
      intro r hr
      rcases List.mem_cons.mp hr with rfl | hr1
      · exact ⟨habs, ⟨c, List.mem_cons_self _ _, rfl⟩⟩
      · refine ⟨fun r0 hr0 => (h2 r hr1).1 r0 (List.mem_append_left _ hr0), ?_⟩
        obtain ⟨c1, hc1, he⟩ := (h2 r hr1).2
        exact ⟨c1, List.mem_cons_of_mem _ hc1, he⟩

/-- C10.  For every Generation whose row already exists in the store,
save_to_db updates only the generation's own row, and the
generation_changes table keeps every pre-existing row unchanged: no
existing row is updated or re-inserted (so in-memory edits to an existing
change's title, description, status or type are silently dropped), and
the rows that are appended all carry change_ids absent from the table and
stem from the generation's change list. -/
theorem generation_save_to_db_existing_changes (g : Generation) (s : Store)
    (h : s.generations.any (fun r => r.generation_id == g.generation_id) = true) :
    ((g.save_to_db s).generations
       = s.generations.map (fun r => if r.generation_id == g.generation_id then g.updateRow r else r))
    ∧ ∃ newRows,
        (g.save_to_db s).generation_changes = s.generation_changes ++ newRows
        ∧ ∀ r ∈ newRows,
            (∀ r0 ∈ s.generation_changes, ¬ r0.change_id = r.change_id)
            ∧ ∃ c ∈ g.changes, r = changeRowOf g.generation_id c := by
  unfold Generation.save_to_db
  rw [if_pos h]
  constructor
  · exact insertChanges_fold_generations g.generation_id g.changes _
  · exact insertChanges_fold_spec g.generation_id g.changes _

/-- Witness generation for C10: same id as genEx, an edited copy of
CH-1's row plus a fresh CH-2. -/
def genC10 : Generation :=
  { generation_id := "G-1", version := "v1.0.0",
    changes := [{ change_id := "CH-1", type := "fix", title := "Edited title" },
                { change_id := "CH-2", type := "add", title := "Second" }] }

def storeC10 : Store :=
  { generations := [Generation.toRow genEx]
    generation_changes := [changeRowOf "G-1" { change_id := "CH-1", type := "add", title := "Feature" }]
    evolutions := []
    pipelines := []
    sync_metadata := [] }

/-- Witness for C10: saving genC10 over storeC10 leaves CH-1's stored row
(with the old title) untouched and only appends rows with fresh ids. -/
theorem generation_save_to_db_existing_changes_witness :
    ((genC10.save_to_db storeC10).generations
       = storeC10.generations.map
           (fun r => if r.generation_id == genC10.generation_id then genC10.updateRow r else r))
    ∧ ∃ newRows,
        (genC10.save_to_db storeC10).generation_changes
          = storeC10.generation_changes ++ newRows
        ∧ ∀ r ∈ newRows,
            (∀ r0 ∈ storeC10.generation_changes, ¬ r0.change_id = r.change_id)
            ∧ ∃ c ∈ genC10.changes, r = changeRowOf genC10.generation_id c :=
  generation_save_to_db_existing_changes genC10 storeC10 (by rfl)

/-! ## C9: push_evolutions and the missing code_name attribute -/

/-- A generation row linked to the cloud, for the C9 run. -/
def genRowC9 : GenRow :=
  { generation_id := "G-1", version := "v1.0.0", description := none, status := "draft",
    pipeline_template := none, sync_status := "synced", remote_id := some "R-1",
    created_at := some 0, promoted_at := none, created_by := none, promoted_by := none,
    team_id := none, last_synced_at := none }

/-- A locally recorded evolution of that generation. -/
def evoRowC9 : EvoRow :=
  { evolution_id := "E-1", generation_id := "G-1", change_id := "CH-1", code_name := none,
    tag := some "v1.0.0-rc.1", status := "pass", pipeline_run_id := none,
    started_at := some 0, completed_at := none, sync_status := "not_synced",
    remote_id := none, created_by := none, last_synced_at := none }

def storeC9 : Store :=
  { generations := [genRowC9]
    generation_changes := [changeRowOf "G-1" { change_id := "CH-1", type := "add", title := "Feature" }]
    evolutions := [evoRowC9]
    pipelines := []
    sync_metadata := [] }

/-- A cloud that knows the generation and its change. -/
def clientC9 : EvoPushClient :=
  { get_generation_by_version := fun v =>
      if v == "v1.0.0" then
        some { id := "1", generation_id := "G-1", version := "v1.0.0",
               changes := some [{ id := "CH-1", type := "add", title := "Feature" }] }
      else none }

/-- C9.  The claim says push_evolutions captures each per-evolution
failure as an errors entry carrying the originating tag, never raises and
keeps processing the batch.  The code cannot do that: every loop
iteration reads evo.code_name (an attribute the Evolution class never
defines) while building evo_data or an error entry, and the except
handler that should capture the failure reads evo.code_name again, so the
AttributeError propagates out of push_evolutions and aborts the whole
batch.  Evaluated here on a fully healthy input: a synced generation, an
existing evolution, a cloud generation carrying the change. -/
theorem sync_push_evolutions_attribute_error :
    CloudSync.push_evolutions storeC9 clientC9 "v1.0.0"
      = .error (.attributeError "code_name") := by rfl

/-! ## C4: AllChangesProvenGate -/

/-- A change has a positive pass count exactly when some evolution of the
(generation_id, change_id) pair has status pass. -/
theorem provenCounts_snd_pos_iff (g : Generation) (s : Store) (c : GenerationChange) :
    0 < (provenCounts g s c).2 ↔ ∃ e ∈ s.evolutions,
      e.generation_id = g.generation_id ∧ e.change_id = c.change_id ∧ e.status = "pass" := by
  unfold provenCounts
  simp only [List.length_pos_iff_exists_mem, List.mem_filter, Bool.and_eq_true, beq_iff_eq]
  constructor
  · rintro ⟨e, ⟨he, hg, hc⟩, hp⟩
    exact ⟨e, he, hg, hc, hp⟩
  · rintro ⟨e, he, hg, hc, hp⟩
    exact ⟨e, ⟨he, hg, hc⟩, hp⟩

/-- Membership in unprovenChanges is exactly being the id of a change
without a pass evolution. -/
theorem unprovenChanges_mem_iff (g : Generation) (s : Store) (cid : String) :
    cid ∈ unprovenChanges g s ↔ ∃ c ∈ g.changes, c.change_id = cid ∧
      ¬∃ e ∈ s.evolutions, e.generation_id = g.generation_id ∧
        e.change_id = c.change_id ∧ e.status = "pass" := by
  unfold unprovenChanges
  simp only [List.mem_map, List.mem_filter, beq_iff_eq]
  constructor
  · rintro ⟨c, ⟨hc, hz⟩, rfl⟩
    refine ⟨c, hc, rfl, ?_⟩
    rw [← provenCounts_snd_pos_iff g s c]
    omega
  · rintro ⟨c, hc, rfl, hnp⟩
    refine ⟨c, ⟨hc, ?_⟩, rfl⟩
    rw [← provenCounts_snd_pos_iff g s c] at hnp
    omega

/-- Empty-change-list generation for the C4 counterexample. -/
def genEmpty : Generation := { generation_id := "G-0", version := "v0.1.0", changes := [] }

/-- Counterexample for C4 as stated: on a generation with an empty change
list, every change vacuously has a pass evolution, yet the gate returns
passed=false ("Generation has no changes"), so the claimed iff fails. -/
theorem gates_all_changes_proven_empty_counterexample :
    ¬(((AllChangesProvenGate.check genEmpty emptyStore).passed = true) ↔
       ∀ c ∈ genEmpty.changes, ∃ e ∈ emptyStore.evolutions,
         e.generation_id = genEmpty.generation_id ∧ e.change_id = c.change_id
           ∧ e.status = "pass") := by decide

/-- C4 (amended).  AllChangesProvenGate.check returns passed=true iff the
generation has at least one change and every change has some evolution
with status pass for the (generation_id, change_id) pair; an empty change
list yields passed=false.  Whenever it fails on a non-empty change list,
the details key unproven_changes holds the list of the change ids without
a pass evolution (in change order), and membership in that list is
exactly lacking a pass evolution. -/
theorem gates_all_changes_proven_characterization (g : Generation) (s : Store) :
    ((AllChangesProvenGate.check g s).passed = true
        ↔ g.changes ≠ [] ∧ ∀ c ∈ g.changes, ∃ e ∈ s.evolutions,
            e.generation_id = g.generation_id ∧ e.change_id = c.change_id ∧ e.status = "pass")
    ∧ (g.changes ≠ [] → (AllChangesProvenGate.check g s).passed = false →
        (AllChangesProvenGate.check g s).details.lookup "unproven_changes"
          = some (.list ((unprovenChanges g s).map .s)))
    ∧ (∀ cid, cid ∈ unprovenChanges g s
        ↔ ∃ c ∈ g.changes, c.change_id = cid ∧ ¬∃ e ∈ s.evolutions,
            e.generation_id = g.generation_id ∧ e.change_id = c.change_id
              ∧ e.status = "pass") := by
  refine ⟨?_, ?_, fun cid => unprovenChanges_mem_iff g s cid⟩
  · by_cases hempty : g.changes.isEmpty
    · have hnil : g.changes = [] := by simpa [List.isEmpty_iff] using hempty
      unfold AllChangesProvenGate.check
      rw [if_pos hempty]
      simp [hnil]
    · have hne : g.changes ≠ [] := by simpa [List.isEmpty_iff] using hempty
      unfold AllChangesProvenGate.check
      rw [if_neg hempty]
      by_cases hu : (unprovenChanges g s).isEmpty
      · rw [if_pos hu]
        simp only [true_iff, hne, ne_eq, not_false_iff, true_and]
        intro c hc
        have hnm : ¬ c.change_id ∈ unprovenChanges g s := by
          intro hmem
          rw [List.isEmpty_iff] at hu
          simp [hu] at hmem
        rw [unprovenChanges_mem_iff] at hnm
        by_contra hno
        exact hnm ⟨c, hc, rfl, hno⟩
      · rw [if_neg hu]
        simp only [Bool.false_eq_true, false_iff, not_and, ne_eq]
        intro _
        have : ∃ cid, cid ∈ unprovenChanges g s := by
          rcases hl : unprovenChanges g s with _ | ⟨x, xs⟩
          · rw [List.isEmpty_iff] at hu; exact absurd hl hu
          · exact ⟨x, by simp [hl]⟩
        obtain ⟨cid, hcid⟩ := this
        rw [unprovenChanges_mem_iff] at hcid
        obtain ⟨c, hc, _, hnp⟩ := hcid
        intro hall
        exact hnp (hall c hc)
  · intro hne hfail
    have hempty : g.changes.isEmpty = false := by
      rcases he : g.changes.isEmpty with _ | _
      · rfl
      · rw [List.isEmpty_iff] at he; exact absurd he hne
    unfold AllChangesProvenGate.check at hfail ⊢
    rw [if_neg (by simp [hempty])] at hfail ⊢
    by_cases hu : (unprovenChanges g s).isEmpty
    · rw [if_pos hu] at hfail
      exact absurd hfail (by simp)
    · rw [if_neg hu]
      rfl

/-- Store for the C4 witness: one pass evolution for genEx's single
change. -/
def storeC4 : Store :=
  { generations := []
    generation_changes := []
    evolutions := [{ evolution_id := "E-1", generation_id := "G-1", change_id := "CH-1",
                     code_name := none, tag := some "v1.0.0-rc.1", status := "pass",
                     pipeline_run_id := none, started_at := some 0, completed_at := none,
                     sync_status := "not_synced", remote_id := none, created_by := none,
                     last_synced_at := none }]
    pipelines := []
    sync_metadata := [] }

/-- Witness for C4: genEx's one change is proven in storeC4, so the gate
passes. -/
theorem gates_all_changes_proven_characterization_witness :
    (AllChangesProvenGate.check genEx storeC4).passed = true :=
  (gates_all_changes_proven_characterization genEx storeC4).1.mpr (by decide)

/-! ## C5: Evolution.start_evolution -/

/-- C5.  start_evolution fails with the not-found error when no
generation carries the normalized version, fails with the
change-not-found error when the change does not belong to the resolved
generation, and in both failure cases returns the store unchanged (no
evolution row is inserted).  When generation and change both exist, it
returns a pending evolution tagged with the next rc tag and the store
with exactly that one new row appended to the evolutions table.  The
freshness hypothesis models uuid4 never colliding with an existing
evolution_id. -/
theorem evolution_start_evolution_spec (s : Store) (version change_id newId : String)
    (now : Nat) (created_by : Option String)
    (hfresh : ∀ r ∈ s.evolutions, r.evolution_id ≠ newId) :
    ((∀ r ∈ s.generations, r.version ≠ normalizeVersion version) →
        Evolution.start_evolution s version change_id newId now created_by
          = (.error ("Generation " ++ normalizeVersion version ++ " not found"), s))
    ∧ (∀ genRow, s.generations.find? (fun r => r.version == normalizeVersion version) = some genRow →
        (∀ r ∈ s.generation_changes,
            ¬(r.change_id = change_id ∧ r.generation_id = genRow.generation_id)) →
        Evolution.start_evolution s version change_id newId now created_by
          = (.error ("Change " ++ change_id ++ " not found in generation "
              ++ normalizeVersion version), s))
    ∧ (∀ genRow, s.generations.find? (fun r => r.version == normalizeVersion version) = some genRow →
        (∃ r ∈ s.generation_changes,
            r.change_id = change_id ∧ r.generation_id = genRow.generation_id) →
        ∃ evo : Evolution,
          Evolution.start_evolution s version change_id newId now created_by
            = (.ok evo, { s with evolutions := s.evolutions ++ [evo.toRow] })
          ∧ evo.status = "pending"
          ∧ evo.tag = some (Evolution.generate_next_rc_tag s (normalizeVersion version))
          ∧ evo.generation_id = genRow.generation_id
          ∧ evo.change_id = change_id
          ∧ evo.evolution_id = newId
          ∧ evo.started_at = now) := by
  refine ⟨?_, ?_, ?_⟩
  · intro hnone
    have hfind : s.generations.find? (fun r => r.version == normalizeVersion version) = none := by
      rw [List.find?_eq_none]
      intro r hr
      simpa using hnone r hr
    simp [Evolution.start_evolution, hfind]
  · intro genRow hfind hnochg
    have hfil : (s.generation_changes.filter (fun r =>
        r.change_id == change_id && r.generation_id == genRow.generation_id)).isEmpty = true := by
      rw [List.isEmpty_iff, List.filter_eq_nil_iff]
      intro r hr
      simpa using hnochg r hr
    simp [Evolution.start_evolution, hfind, hfil]
  · intro genRow hfind hex
    obtain ⟨r0, hr0, hc0, hg0⟩ := hex
    have hfil : (s.generation_changes.filter (fun r =>
        r.change_id == change_id && r.generation_id == genRow.generation_id)).isEmpty = false := by
      rcases hi : (s.generation_changes.filter (fun r =>
          r.change_id == change_id && r.generation_id == genRow.generation_id)).isEmpty with _ | _
      · exact hi
      · exfalso
        rw [List.isEmpty_iff, List.filter_eq_nil_iff] at hi
        exact hi r0 hr0 (by simp [hc0, hg0])
    have hins : ∀ e : Evolution, e.evolution_id = newId →
        e.save_to_db s = { s with evolutions := s.evolutions ++ [e.toRow] } := by
      intro e he
      unfold Evolution.save_to_db
      have hany : s.evolutions.any (fun r => r.evolution_id == e.evolution_id) = false := by
        rcases ha : s.evolutions.any (fun r => r.evolution_id == e.evolution_id) with _ | _
        · rfl
        · exfalso
          obtain ⟨r, hr, hb⟩ := List.any_eq_true.mp ha
          exact hfresh r hr (by rw [← he]; exact beq_iff_eq.mp hb)
      rw [hany]
      simp
    simp only [Evolution.start_evolution, hfind, hfil, Bool.false_eq_true, if_false]
    refine ⟨{ evolution_id := newId, generation_id := genRow.generation_id,
              change_id := change_id,
              tag := some (Evolution.generate_next_rc_tag s (normalizeVersion version)),
              status := "pending", pipeline_run_id := none, started_at := now,
              completed_at := none, sync_status := "not_synced", remote_id := none,
              created_by := created_by }, ?_, rfl, rfl, rfl, rfl, rfl, rfl⟩
    rw [hins _ rfl]

/-- Fixtures for the C5 witness: a store holding genEx's row and its
CH-1 change row, no evolutions yet. -/
def storeC5 : Store :=
  { generations := [Generation.toRow genEx]
    generation_changes := [changeRowOf "G-1" { change_id := "CH-1", type := "add", title := "Feature" }]
    evolutions := []
    pipelines := []
    sync_metadata := [] }

/-- Witness for C5: starting an evolution for CH-1 of version 1.0.0
(normalized to v1.0.0) against storeC5 inserts exactly one pending
evolution tagged v1.0.0-rc.1. -/
theorem evolution_start_evolution_spec_witness :
    ∃ evo : Evolution,
      Evolution.start_evolution storeC5 "1.0.0" "CH-1" "E-7" 3 none
        = (.ok evo, { storeC5 with evolutions := storeC5.evolutions ++ [evo.toRow] })
      ∧ evo.status = "pending"
      ∧ evo.tag = some (Evolution.generate_next_rc_tag storeC5 (normalizeVersion "1.0.0"))
      ∧ evo.generation_id = (Generation.toRow genEx).generation_id
      ∧ evo.change_id = "CH-1"
      ∧ evo.evolution_id = "E-7"
      ∧ evo.started_at = 3 :=
  (evolution_start_evolution_spec storeC5 "1.0.0" "CH-1" "E-7" 3 none (by simp [storeC5])).2.2
    (Generation.toRow genEx) (by rfl)
    ⟨changeRowOf "G-1" { change_id := "CH-1", type := "add", title := "Feature" },
     by simp [storeC5], by constructor <;> rfl⟩

/-! ## C7: pull reports a version conflict and merges nothing -/

/-- set_metadata only touches the sync_metadata table. -/
theorem set_metadata_frame (s : Store) (key value : String) :
    (CloudSync.set_metadata s key value).generations = s.generations
    ∧ (CloudSync.set_metadata s key value).generation_changes = s.generation_changes
    ∧ (CloudSync.set_metadata s key value).evolutions = s.evolutions := by
  unfold CloudSync.set_metadata
  by_cases h : s.sync_metadata.any (fun p => p.1 == key) = true
  · rw [if_pos h]; exact ⟨rfl, rfl, rfl⟩
  · rw [if_neg h]; exact ⟨rfl, rfl, rfl⟩

/-- C7.  For a remote generation whose id links to no local generation
while its version string matches some local generation, the pull loop
body records exactly one conflict entry for that version, counts the item
neither as new nor as updated, and leaves the whole store — in particular
the local generation, its changes and its evolutions — unchanged; a pull
over just that generation accordingly returns new=0, updated=0, that one
conflict, and only stamps the pull timestamp. -/
theorem cloudsync_pull_version_conflict (s : Store) (res : PullResult) (cloud : Cloud)
    (now : Nat) (cg : CloudGen)
    (h1 : ∀ r ∈ s.generations, r.remote_id ≠ some cg.id)
    (h2 : ∃ r ∈ s.generations, r.version = cg.version) :
    CloudSync.pullStep cloud now (s, res) cg =
      (s, { res with conflicts := res.conflicts ++
        [{ version := cg.version
           reason := "Local and cloud have same version"
           resolution := "Rename local version or delete" }] })
    ∧ (CloudSync.pull s { generations := [cg], evolutions := cloud.evolutions } now).1
        = { new := 0, updated := 0, conflicts :=
            [{ version := cg.version
               reason := "Local and cloud have same version"
               resolution := "Rename local version or delete" }] }
    ∧ (CloudSync.pull s { generations := [cg], evolutions := cloud.evolutions } now).2.generations
        = s.generations
    ∧ (CloudSync.pull s { generations := [cg], evolutions := cloud.evolutions } now).2.generation_changes
        = s.generation_changes
    ∧ (CloudSync.pull s { generations := [cg], evolutions := cloud.evolutions } now).2.evolutions
        = s.evolutions := by
  have hfind : s.generations.find? (fun r => r.remote_id == some cg.id) = none := by
    rw [List.find?_eq_none]
    intro r hr
    simpa using h1 r hr
  have hfil : (s.generations.filter (fun r => r.version == cg.version)).isEmpty = false := by
    obtain ⟨r0, hr0, hv0⟩ := h2
    rcases hi : (s.generations.filter (fun r => r.version == cg.version)).isEmpty with _ | _
    · first | rfl | exact hi
    · exfalso
      rw [List.isEmpty_iff, List.filter_eq_nil_iff] at hi
      exact hi r0 hr0 (by simp [hv0])
  have hstep : ∀ (cl : Cloud) (res1 : PullResult), CloudSync.pullStep cl now (s, res1) cg =
      (s, { res1 with conflicts := res1.conflicts ++
        [{ version := cg.version
           reason := "Local and cloud have same version"
           resolution := "Rename local version or delete" }] }) := by
    intro cl res1
    unfold CloudSync.pullStep
    dsimp only
    rw [hfind]
    simp [hfil]
  have hpull : CloudSync.pull s { generations := [cg], evolutions := cloud.evolutions } now =
      (⟨0, 0, [{ version := cg.version
                 reason := "Local and cloud have same version"
                 resolution := "Rename local version or delete" }]⟩,
       CloudSync.set_metadata s "last_pull_timestamp" (natToString now)) := by
    simp only [CloudSync.pull, List.foldl_cons, List.foldl_nil, hstep, List.nil_append]
  refine ⟨hstep cloud res, ?_, ?_, ?_, ?_⟩
  · rw [hpull]
  · rw [hpull]; exact (set_metadata_frame s "last_pull_timestamp" (natToString now)).1
  · rw [hpull]; exact (set_metadata_frame s "last_pull_timestamp" (natToString now)).2.1
  · rw [hpull]; exact (set_metadata_frame s "last_pull_timestamp" (natToString now)).2.2

/-- Fixtures for the C7 witness: two independently created generations
named v2.0.0, one local without remote link, one remote. -/
def localRowC7 : GenRow :=
  { generation_id := "G-local", version := "v2.0.0", description := none, status := "draft",
    pipeline_template := none, sync_status := "not_synced", remote_id := none,
    created_at := some 0, promoted_at := none, created_by := none, promoted_by := none,
    team_id := none, last_synced_at := none }

def storeC7 : Store := { generations := [localRowC7], generation_changes := [],
                         evolutions := [], pipelines := [], sync_metadata := [] }

def cloudGenC7 : CloudGen :=
  { id := "77", generation_id := "G-remote", version := "v2.0.0" }

/-- Witness for C7: pulling the remote v2.0.0 over the unlinked local
v2.0.0 surfaces one conflict, zero new, zero updated, and the local
tables survive untouched. -/
theorem cloudsync_pull_version_conflict_witness :
    (CloudSync.pull storeC7 { generations := [cloudGenC7], evolutions := fun _ => [] } 4).1
        = { new := 0, updated := 0, conflicts :=
            [{ version := cloudGenC7.version
               reason := "Local and cloud have same version"
               resolution := "Rename local version or delete" }] }
    ∧ (CloudSync.pull storeC7 { generations := [cloudGenC7], evolutions := fun _ => [] } 4).2.generations
        = storeC7.generations :=
  let h := cloudsync_pull_version_conflict storeC7 ⟨0, 0, []⟩
    { generations := [cloudGenC7], evolutions := fun _ => [] } 4 cloudGenC7
    (by intro r hr; simp [storeC7] at hr; simp [hr, localRowC7])
    ⟨localRowC7, by simp [storeC7], rfl⟩
  ⟨h.2.1, h.2.2.1⟩

/-! ## C8: pull run twice -/

/-- Unfolding of pull into its loop and the metadata stamp. -/
theorem pull_eq (s : Store) (cloud : Cloud) (now : Nat) :
    CloudSync.pull s cloud now =
      ((cloud.generations.foldl (CloudSync.pullStep cloud now) (s, ⟨0, 0, []⟩)).2,
       CloudSync.set_metadata
         (cloud.generations.foldl (CloudSync.pullStep cloud now) (s, ⟨0, 0, []⟩)).1
         "last_pull_timestamp" (natToString now)) := rfl

/-- The evolution upsert loop never touches the generations table. -/
theorem upsert_foldl_generations (gid : String) (now : Nat) (l : List CloudEvo) :
    ∀ s : Store, (l.foldl (upsertCloudEvo gid now) s).generations = s.generations := by
  induction l with
  | nil => intro s; rfl
  | cons ce l ih =>
    intro s
    rw [List.foldl_cons, ih]
    simp only [upsertCloudEvo]
    split <;> rfl

/-- _insert_from_cloud appends exactly the cloud generation's row to the
generations table. -/
theorem insert_from_cloud_generations (s : Store) (cloud : Cloud) (cg : CloudGen) (now : Nat) :
    (CloudSync.insert_from_cloud s cloud cg now).generations
      = s.generations ++ [genRowOfCloud cg now] := by
  unfold CloudSync.insert_from_cloud CloudSync.pull_evolutions_for_generation
  rw [upsert_foldl_generations]

/-- _update_from_cloud maps the scalar update over the rows matching the
local generation id and touches no other generations row. -/
theorem update_from_cloud_generations (s : Store) (cloud : Cloud) (localRow : GenRow)
    (cg : CloudGen) (now : Nat) :
    (CloudSync.update_from_cloud s cloud localRow cg now).generations
      = s.generations.map (fun r =>
          if r.generation_id == localRow.generation_id then genRowUpdateFromCloud cg now r else r) := by
  unfold CloudSync.update_from_cloud CloudSync.pull_evolutions_for_generation
  rw [upsert_foldl_generations]
  cases cg.changes <;> rfl

/-- The scalar update never rewrites remote_id. -/
theorem genRowUpdateFromCloud_remote_id (cg : CloudGen) (now : Nat) (r : GenRow) :
    (genRowUpdateFromCloud cg now r).remote_id = r.remote_id := rfl

/-- First-pull invariant: over cloud generations with pairwise distinct
ids and versions, none of which collides with a local row by remote id or
version, the loop inserts every generation (in order) and counts them all
as new. -/
theorem pull_foldl_fresh (cloud : Cloud) (now : Nat) :
    ∀ (l : List CloudGen) (s : Store) (res : PullResult),
      (∀ cg ∈ l, ∀ r ∈ s.generations, r.remote_id ≠ some cg.id ∧ r.version ≠ cg.version) →
      l.Pairwise (fun a b => a.id ≠ b.id ∧ a.version ≠ b.version) →
      (l.foldl (CloudSync.pullStep cloud now) (s, res)).1.generations
          = s.generations ++ l.map (fun cg => genRowOfCloud cg now)
      ∧ (l.foldl (CloudSync.pullStep cloud now) (s, res)).2
          = { res with new := res.new + l.length } := by
  intro l
  induction l with
  | nil => intro s res _ _; exact ⟨by simp, by simp⟩
  | cons cg l ih =>
    intro s res h hpw
    have hfind : s.generations.find? (fun r => r.remote_id == some cg.id) = none := by
      rw [List.find?_eq_none]
      intro r hr
      simpa using (h cg (List.mem_cons_self _ _) r hr).1
    have hfil : (s.generations.filter (fun r => r.version == cg.version)).isEmpty = true := by
      rw [List.isEmpty_iff, List.filter_eq_nil_iff]
      intro r hr
      simpa using (h cg (List.mem_cons_self _ _) r hr).2
    have hstep : CloudSync.pullStep cloud now (s, res) cg =
        (CloudSync.insert_from_cloud s cloud cg now, { res with new := res.new + 1 }) := by
      unfold CloudSync.pullStep
      dsimp only
      rw [hfind]
      simp [hfil]
    rw [List.foldl_cons, hstep]
    have hpw1 := List.pairwise_cons.mp hpw
    have hnext : ∀ cg1 ∈ l, ∀ r ∈ (CloudSync.insert_from_cloud s cloud cg now).generations,
        r.remote_id ≠ some cg1.id ∧ r.version ≠ cg1.version := by
      intro cg1 hcg1 r hr
      rw [insert_from_cloud_generations] at hr
      rcases List.mem_append.mp hr with hold | hnew
      · exact h cg1 (List.mem_cons_of_mem _ hcg1) r hold
      · rcases List.mem_singleton.mp hnew with rfl
        refine ⟨?_, ?_⟩
        · intro hid
          exact (hpw1.1 cg1 hcg1).1 (by simpa [genRowOfCloud] using hid)
        · exact (hpw1.1 cg1 hcg1).2
    obtain ⟨ihg, ihr⟩ := ih (CloudSync.insert_from_cloud s cloud cg now)
      { res with new := res.new + 1 } hnext hpw1.2
    refine ⟨?_, ?_⟩
    · rw [ihg, insert_from_cloud_generations]
      simp
    · rw [ihr]
      simp only [List.length_cons]
      congr 1
      omega

/-- Second-pull invariant: when every cloud generation is linked to some
local row by remote id, the loop takes the update branch for each of them
and counts them all as updated. -/
theorem pull_foldl_linked (cloud : Cloud) (now : Nat) :
    ∀ (l : List CloudGen) (s : Store) (res : PullResult),
      (∀ cg ∈ l, ∃ r ∈ s.generations, r.remote_id = some cg.id) →
      (l.foldl (CloudSync.pullStep cloud now) (s, res)).2
        = { res with updated := res.updated + l.length } := by
  intro l
  induction l with
  | nil => intro s res _; simp
  | cons cg l ih =>
    intro s res h
    rcases hf : s.generations.find? (fun r => r.remote_id == some cg.id) with _ | localRow
    · exfalso
      obtain ⟨r, hr, hrid⟩ := h cg (List.mem_cons_self _ _)
      rw [List.find?_eq_none] at hf
      exact hf r hr (by simp [hrid])
    · have hstep : CloudSync.pullStep cloud now (s, res) cg =
          (CloudSync.update_from_cloud s cloud localRow cg now,
           { res with updated := res.updated + 1 }) := by
        unfold CloudSync.pullStep
        dsimp only
        rw [hf]
      rw [List.foldl_cons, hstep]
      have hnext : ∀ cg1 ∈ l, ∃ r ∈ (CloudSync.update_from_cloud s cloud localRow cg now).generations,
          r.remote_id = some cg1.id := by
        intro cg1 hcg1
        obtain ⟨r, hr, hrid⟩ := h cg1 (List.mem_cons_of_mem _ hcg1)
        rw [update_from_cloud_generations]
        refine ⟨if r.generation_id == localRow.generation_id
                  then genRowUpdateFromCloud cg now r else r,
                List.mem_map_of_mem _ hr, ?_⟩
        by_cases hc : r.generation_id == localRow.generation_id
        · simp only [hc, if_true, genRowUpdateFromCloud_remote_id]; exact hrid
        · simp only [hc, if_false]; exact hrid
      rw [ih _ _ hnext]
      simp only [List.length_cons]
      congr 1
      omega

/-- Remote generation and cloud for the C8 counterexample. -/
def cloudGenC8 : CloudGen := { id := "9", generation_id := "G-9", version := "v9.0.0" }

def cloudC8 : Cloud := { generations := [cloudGenC8], evolutions := fun _ => [] }

/-- Counterexample for C8 as stated: pulling twice from one unchanged
remote generation into an initially generation-free store yields
updated=1 on the second call, not the claimed 0 — the update branch
counts every linked generation unconditionally, with no change
detection. -/
theorem cloudsync_pull_twice_counterexample :
    (CloudSync.pull (CloudSync.pull emptyStore cloudC8 0).2 cloudC8 1).1.new = 0
    ∧ (CloudSync.pull (CloudSync.pull emptyStore cloudC8 0).2 cloudC8 1).1.updated = 1 :=
  ⟨rfl, rfl⟩

/-- C8 (amended).  Starting from a store with no generations and a remote
whose generations have pairwise distinct ids and versions, the first pull
reports every remote generation as new, and a second pull against the
unchanged remote reports new=0 and no conflicts but counts every (now
linked) remote generation as updated — updated equals the number of
remote generations instead of the claimed 0. -/
theorem cloudsync_pull_twice_updates_all (s : Store) (cloud : Cloud) (now1 now2 : Nat)
    (hempty : s.generations = [])
    (hdist : cloud.generations.Pairwise (fun a b => a.id ≠ b.id ∧ a.version ≠ b.version)) :
    (CloudSync.pull s cloud now1).1
        = { new := cloud.generations.length, updated := 0, conflicts := [] }
    ∧ (CloudSync.pull (CloudSync.pull s cloud now1).2 cloud now2).1
        = { new := 0, updated := cloud.generations.length, conflicts := [] } := by
  have hfresh := pull_foldl_fresh cloud now1 cloud.generations s ⟨0, 0, []⟩
    (by intro cg _ r hr; rw [hempty] at hr; cases hr) hdist
  have hs1gens : (CloudSync.pull s cloud now1).2.generations
      = cloud.generations.map (fun cg => genRowOfCloud cg now1) := by
    rw [pull_eq]
    show (CloudSync.set_metadata _ _ _).generations = _
    rw [(set_metadata_frame _ _ _).1, hfresh.1, hempty, List.nil_append]
  refine ⟨?_, ?_⟩
  · rw [pull_eq]
    show (cloud.generations.foldl (CloudSync.pullStep cloud now1) (s, ⟨0, 0, []⟩)).2 = _
    rw [hfresh.2]
    simp
  · rw [pull_eq (CloudSync.pull s cloud now1).2 cloud now2]
    show (cloud.generations.foldl (CloudSync.pullStep cloud now2)
      ((CloudSync.pull s cloud now1).2, ⟨0, 0, []⟩)).2 = _
    rw [pull_foldl_linked cloud now2 cloud.generations (CloudSync.pull s cloud now1).2 ⟨0, 0, []⟩]
    · simp
    · intro cg hcg
      rw [hs1gens]
      exact ⟨genRowOfCloud cg now1, List.mem_map_of_mem _ hcg, rfl⟩

/-- Two distinct remote generations for the C8 witness. -/
def cloudC8b : Cloud :=
  { generations := [{ id := "1", generation_id := "G-1", version := "v1.0.0" },
                    { id := "2", generation_id := "G-2", version := "v2.0.0" }]
    evolutions := fun _ => [] }

/-- Witness for C8 (amended): two fresh remote generations pull as new=2,
and the unchanged second pull reports new=0 but updated=2. -/
theorem cloudsync_pull_twice_updates_all_witness :
    (CloudSync.pull emptyStore cloudC8b 0).1
        = { new := cloudC8b.generations.length, updated := 0, conflicts := [] }
    ∧ (CloudSync.pull (CloudSync.pull emptyStore cloudC8b 0).2 cloudC8b 1).1
        = { new := 0, updated := cloudC8b.generations.length, conflicts := [] } :=
  cloudsync_pull_twice_updates_all emptyStore cloudC8b 0 1 rfl
    (by constructor
        · intro b hb
          simp only [cloudC8b, List.mem_singleton] at hb
          rw [hb]
          exact ⟨by decide, by decide⟩
        · constructor
          · intro b hb; cases hb
          · constructor)

/-! ## C3: rc tag numbering -/

theorem digitChar_isDigit {d : Nat} (h : d < 10) : (digitChar d).isDigit = true := by
  interval_cases d <;> decide

theorem digitChar_val {d : Nat} (h : d < 10) : (digitChar d).toNat - 48 = d := by
  interval_cases d <;> decide

/-- The decimal renderer emits a non-empty all-digit list whose value is
the rendered number (given enough fuel). -/
theorem natToChars_spec : ∀ (fuel n : Nat), n < fuel →
    natToChars fuel n ≠ [] ∧ (∀ c ∈ natToChars fuel n, c.isDigit = true)
      ∧ digitsVal (natToChars fuel n) = n := by
  intro fuel
  induction fuel with
  | zero => intro n h; omega
  | succ fuel ih =>
    intro n h
    by_cases h10 : n < 10
    · simp only [natToChars, if_pos h10]
      refine ⟨by simp, ?_, ?_⟩
      · intro c hc
        rcases List.mem_singleton.mp hc with rfl
        exact digitChar_isDigit h10
      · show digitsVal [digitChar n] = n
        unfold digitsVal
        simp [digitChar_val h10]
    · have hlt : n / 10 < n := Nat.div_lt_self (by omega) (by omega)
      have hrec : n / 10 < fuel := by omega
      obtain ⟨hne, hdig, hval⟩ := ih (n / 10) hrec
      simp only [natToChars, if_neg h10]
      refine ⟨by simp, ?_, ?_⟩
      · intro c hc
        rcases List.mem_append.mp hc with hc1 | hc2
        · exact hdig c hc1
        · rcases List.mem_singleton.mp hc2 with rfl
          exact digitChar_isDigit (Nat.mod_lt _ (by omega))
      · show digitsVal (natToChars fuel (n / 10) ++ [digitChar (n % 10)]) = n
        unfold digitsVal
        rw [List.foldl_append]
        show 10 * digitsVal (natToChars fuel (n / 10)) + ((digitChar (n % 10)).toNat - 48) = n
        rw [hval, digitChar_val (Nat.mod_lt _ (by omega))]
        omega

theorem dropPre_append : ∀ (a b : List Char), dropPre a (a ++ b) = some b := by
  intro a
  induction a with
  | nil => intro b; rfl
  | cons c a ih =>
    intro b
    simp only [List.cons_append, dropPre, if_pos rfl]
    exact ih b

theorem takeWhileAll {p : Char → Bool} : ∀ l : List Char, (∀ c ∈ l, p c = true) →
    l.takeWhile p = l := by
  intro l
  induction l with
  | nil => intro _; rfl
  | cons c l ih =>
    intro h
    rw [List.takeWhile_cons, if_pos (h c (List.mem_cons_self _ _)), ih]
    intro c1 hc1
    exact h c1 (List.mem_cons_of_mem _ hc1)

/-- Parsing the tag the generator renders recovers the rc number. -/
theorem parseRcNum_roundtrip (v : String) (m : Nat) :
    parseRcNum v (v ++ "-rc." ++ natToString m) = some m := by
  obtain ⟨hne, hdig, hval⟩ := natToChars_spec (m + 1) m (by omega)
  have hdata : (v ++ "-rc." ++ natToString m).data
      = (v.data ++ "-rc.".data) ++ natToChars (m + 1) m := by
    simp [natToString, List.append_assoc]
  unfold parseRcNum
  rw [hdata, dropPre_append]
  simp only
  rw [takeWhileAll _ hdig]
  have hie : (natToChars (m + 1) m).isEmpty = false := by
    rcases he : (natToChars (m + 1) m).isEmpty with _ | _
    · rfl
    · rw [List.isEmpty_iff] at he
      exact absurd he hne
  rw [hie]
  simp [hval]

/-- The running maximum of the rc fold over numbers 1..k is k. -/
theorem foldl_range_max : ∀ k : Nat,
    (List.range k).foldl (fun h j => if j + 1 > h then j + 1 else h) 0 = k := by
  intro k
  induction k with
  | zero => rfl
  | succ k ih =>
    rw [List.range_succ, List.foldl_append, ih]
    simp

/-- The rc-number fold over rows whose tags render 1..k equals the plain
max fold over those numbers. -/
theorem rcFold_spec (v : String) : ∀ (rows : List EvoRow) (ks : List Nat) (init : Nat),
    rows.map (fun r => r.tag) = ks.map (fun j => some (v ++ "-rc." ++ natToString (j + 1))) →
    rows.foldl (fun h r => match r.tag with
      | some t =>
        match parseRcNum v t with
        | some m => if m > h then m else h
        | none => h
      | none => h) init
    = ks.foldl (fun h j => if j + 1 > h then j + 1 else h) init := by
  intro rows
  induction rows with
  | nil =>
    intro ks init hmap
    rcases ks with _ | ⟨j, ks⟩
    · rfl
    · simp at hmap
  | cons r rows ih =>
    intro ks init hmap
    rcases ks with _ | ⟨j, ks⟩
    · simp at hmap
    · simp only [List.map_cons, List.cons.injEq] at hmap
      obtain ⟨htag, htl⟩ := hmap
      rw [List.foldl_cons, List.foldl_cons, htag]
      simp only [parseRcNum_roundtrip]
      exact ih ks _ htl

theorem normalizeVersion_startsWith (v : String) (hv : strStartsWith v "v" = true) :
    normalizeVersion v = v := by
  unfold normalizeVersion
  rw [if_pos hv]

/-- C3.  For every version v (already carrying its leading "v", so the
code's normalization is the identity): when no evolution tag matches the
LIKE pattern "<v>-rc.%", generate_next_rc_tag returns "<v>-rc.1"; and
when the matching rows carry exactly the tags "<v>-rc.1" .. "<v>-rc.k"
(k ≥ 1, in table order), it returns "<v>-rc.(k+1)" — one plus the
maximum parsed numeric suffix. -/
theorem evolution_generate_next_rc_tag_spec (s : Store) (v : String)
    (hv : strStartsWith v "v" = true) :
    ((∀ r ∈ s.evolutions, ∀ t, r.tag = some t → sqlLike (v ++ "-rc.%") t = false) →
        Evolution.generate_next_rc_tag s v = v ++ "-rc.1")
    ∧ (∀ k : Nat, 1 ≤ k →
        (s.evolutions.filter (fun r => match r.tag with
            | some t => sqlLike (v ++ "-rc.%") t
            | none => false)).map (fun r => r.tag)
          = (List.range k).map (fun j => some (v ++ "-rc." ++ natToString (j + 1))) →
        Evolution.generate_next_rc_tag s v = v ++ "-rc." ++ natToString (k + 1)) := by
  have hnv : normalizeVersion v = v := normalizeVersion_startsWith v hv
  constructor
  · intro hno
    have hfil : (s.evolutions.filter (fun r => match r.tag with
        | some t => sqlLike (v ++ "-rc.%") t
        | none => false)) = [] := by
      rw [List.filter_eq_nil_iff]
      intro r hr
      cases ht : r.tag with
      | none => simp
      | some t => simp [hno r hr t ht]
    simp only [Evolution.generate_next_rc_tag, hnv, hfil, List.isEmpty_nil, if_true]
  · intro k hk htags
    have hne : (s.evolutions.filter (fun r => match r.tag with
        | some t => sqlLike (v ++ "-rc.%") t
        | none => false)) ≠ [] := by
      intro hnil
      rw [hnil] at htags
      have : (List.range k).map (fun j => some (v ++ "-rc." ++ natToString (j + 1))) = [] :=
        htags.symm
      rcases hr : List.range k with _ | ⟨j, js⟩
      · have : k = 0 := by simpa using congrArg List.length hr
        omega
      · rw [hr] at this
        simp at this
    have hie : (s.evolutions.filter (fun r => match r.tag with
        | some t => sqlLike (v ++ "-rc.%") t
        | none => false)).isEmpty = false := by
      rcases he : (s.evolutions.filter (fun r => match r.tag with
          | some t => sqlLike (v ++ "-rc.%") t
          | none => false)).isEmpty with _ | _
      · first | rfl | exact he
      · rw [List.isEmpty_iff] at he
        exact absurd he hne
    simp only [Evolution.generate_next_rc_tag, hnv, hie, Bool.false_eq_true, if_false]
    rw [rcFold_spec v _ (List.range k) 0 htags, foldl_range_max]

/-- Store for the C3 witness: exactly the tags v1.2.0-rc.1 and
v1.2.0-rc.2 recorded. -/
def storeC3 : Store :=
  { generations := []
    generation_changes := []
    evolutions :=
      [{ evolution_id := "E-1", generation_id := "G-1", change_id := "CH-1", code_name := none,
         tag := some "v1.2.0-rc.1", status := "pass", pipeline_run_id := none,
         started_at := some 0, completed_at := none, sync_status := "not_synced",
         remote_id := none, created_by := none, last_synced_at := none },
       { evolution_id := "E-2", generation_id := "G-1", change_id := "CH-1", code_name := none,
         tag := some "v1.2.0-rc.2", status := "fail", pipeline_run_id := none,
         started_at := some 1, completed_at := none, sync_status := "not_synced",
         remote_id := none, created_by := none, last_synced_at := none }]
    pipelines := []
    sync_metadata := [] }

/-- Witness for C3: with rc.1 and rc.2 recorded the next tag is
v1.2.0-rc.3, and with no evolutions at all it is v1.2.0-rc.1. -/
theorem evolution_generate_next_rc_tag_spec_witness :
    Evolution.generate_next_rc_tag storeC3 "v1.2.0" = "v1.2.0" ++ "-rc." ++ natToString 3
    ∧ Evolution.generate_next_rc_tag emptyStore "v1.2.0" = "v1.2.0" ++ "-rc.1" :=
  ⟨(evolution_generate_next_rc_tag_spec storeC3 "v1.2.0" (by rfl)).2 2 (by omega) (by rfl),
   (evolution_generate_next_rc_tag_spec emptyStore "v1.2.0" (by rfl)).1
     (by intro r hr; cases hr)⟩

end Gryt
